import Mathlib

/-!
Verification of `src/basics/maxdecltype.hpp` against its specification.

The source is a single function template:

  template<typename T1, typename T2>
  auto max (T1 a, T2 b) -> decltype(b < a ? a : b)
  {
    // if b < a then yield a else b
    return b < a ? a : b;
  }

Shallow embedding: the template is parametrised over the two argument
types `T1`, `T2`, the common type `C` of the two branches of the
conditional, the conversions `c1 : T1 → C`, `c2 : T2 → C` into that
common type, and the comparison `lt b a` embedding the C++ expression
`b < a`.  The body `b < a ? a : b` becomes
`if lt b a then c1 a else c2 b`.
-/

namespace Maxdecltype

/-- Embedding of the template `max` from `src/basics/maxdecltype.hpp`:
`return b < a ? a : b;` where the conditional converts both branches to
the common type `C`. -/
def maxT {T1 T2 C : Type} (lt : T2 → T1 → Bool) (c1 : T1 → C) (c2 : T2 → C)
    (a : T1) (b : T2) : C :=
  if lt b a then c1 a else c2 b

/-- Same-type instantiation `T1 = T2 = C = T` of `max`: both conversions
are the identity. -/
def maxS {T : Type} (lt : T → T → Bool) (a b : T) : T :=
  maxT lt id id a b

/-- Instantiation of `max` at a linearly ordered type, with `b < a`
decided by the order. -/
def maxOrd {T : Type} [LinearOrder T] (a b : T) : T :=
  maxS (fun x y => decide (x < y)) a b

/-- Mixed-type instantiation of `max`: `a` an integer, `b` a
floating-point value; the common type (the floating-point type) is
modelled by ℚ, which is exact on the values the spec examples use.
In `b < a` the integer operand is converted to the common type before
comparing, as C++ arithmetic conversions do. -/
def maxIntRat (a : Int) (b : ℚ) : ℚ :=
  maxT (fun b a => decide (b < (a : ℚ))) (fun a => (a : ℚ)) id a b

/-- The body of `max` as it executes in a caller with ambient state `σ`:
the body is the single expression statement `return b < a ? a : b;`, so
its embedding into the state monad is `pure` of the value computed from
the two by-value parameters; no read or write of the ambient state
occurs. -/
def maxTState (σ : Type) {T1 T2 C : Type} (lt : T2 → T1 → Bool)
    (c1 : T1 → C) (c2 : T2 → C) (a : T1) (b : T2) : StateM σ C :=
  pure (maxT lt c1 c2 a b)

/-- C1: for every pair of arguments for which the call type-checks, if
`b < a` evaluates to true then `max(a, b)` returns `a` converted to the
common type, and otherwise it returns `b` converted to the common
type. -/
theorem maxT_selects {T1 T2 C : Type} (lt : T2 → T1 → Bool)
    (c1 : T1 → C) (c2 : T2 → C) (a : T1) (b : T2) :
    (lt b a = true → maxT lt c1 c2 a b = c1 a) ∧
    (lt b a = false → maxT lt c1 c2 a b = c2 b) := by
  constructor <;> intro h <;> simp [maxT, h]

/-- C1 witness: at `T1 = T2 = C = Int`, `a = 5`, `b = 3`, the comparison
`b < a` is true and `max` returns `a`. -/
theorem maxT_selects_witness :
    maxT (fun (x y : Int) => decide (x < y)) id id 5 3 = 5 :=
  (maxT_selects (fun (x y : Int) => decide (x < y)) id id 5 3).1 (by decide)

/-- C3: every call of `max` that type-checks executes without any
runtime failure: the function is total and its result is always one of
the two converted operands, so there is no runtime error path. -/
theorem maxT_total_no_error {T1 T2 C : Type} (lt : T2 → T1 → Bool)
    (c1 : T1 → C) (c2 : T2 → C) (a : T1) (b : T2) :
    maxT lt c1 c2 a b = c1 a ∨ maxT lt c1 c2 a b = c2 b := by
  unfold maxT
  split
  · exact Or.inl rfl
  · exact Or.inr rfl

/-- C4: when neither `b < a` nor `a < b` holds (the two values are
equivalent under the ordering), `max(a, b)` returns the second operand
`b`, not the first operand `a`. -/
theorem maxS_tie_returns_second {T : Type} (lt : T → T → Bool) (a b : T)
    (hba : lt b a = false) (hab : lt a b = false) :
    maxS lt a b = b := by
  simp [maxS, maxT, hba]

/-- C4 witness: at `T = Int` with the standard order and `a = b = 2`,
neither comparison holds and `max` returns the second operand. -/
theorem maxS_tie_returns_second_witness :
    maxS (fun (x y : Int) => decide (x < y)) 2 2 = 2 :=
  maxS_tie_returns_second (fun (x y : Int) => decide (x < y)) 2 2
    (by decide) (by decide)

/-- C5: for comparable same-typed values `x`, `y`: `max(x, y) = y` when
`x ≤ y` and `max(x, y) = x` when `x > y`. -/
theorem maxOrd_le_gt {T : Type} [LinearOrder T] (x y : T) :
    (x ≤ y → maxOrd x y = y) ∧ (x > y → maxOrd x y = x) := by
  unfold maxOrd maxS maxT
  constructor <;> intro h
  · simp [not_lt_of_le h]
  · simp [h]

/-- C5 witness: the spec example `max(-5, -1) = -1` on `Int`, obtained
from the `x ≤ y` case of the theorem. -/
theorem maxOrd_le_gt_witness : maxOrd (-5 : Int) (-1) = -1 :=
  (maxOrd_le_gt (-5 : Int) (-1)).1 (by decide)

/-- C6: for every value `x`, `max(x, x) = x` (idempotence under equal
inputs, the second operand being returned by the tie-break rule); in
particular `max(3, 3) = 3`. -/
theorem maxS_idem :
    (∀ (T : Type) (lt : T → T → Bool) (x : T), maxS lt x x = x) ∧
    maxOrd (3 : Int) 3 = 3 := by
  constructor
  · intro T lt x
    unfold maxS maxT
    split <;> rfl
  · rfl

/-- C7: for the mixed-type inputs `a = 4` (integer) and `b = 7.2`
(floating-point), `max(a, b)` returns `7.2`: the comparison `7.2 < 4`
is false, so `b` is returned. -/
theorem maxIntRat_4_72 : maxIntRat 4 (7.2 : ℚ) = (7.2 : ℚ) := by
  norm_num [maxIntRat, maxT]

/-- C8: for the mixed-type inputs `a = 9` (integer) and `b = 2.5`
(floating-point), `max(a, b)` returns `9.0`: the comparison `2.5 < 9`
is true, so `a` is returned converted to the common (floating-point)
type. -/
theorem maxIntRat_9_25 : maxIntRat 9 (2.5 : ℚ) = (9 : ℚ) := by
  norm_num [maxIntRat, maxT]

/-- C9: a call to `max` is pure: run in a caller with any ambient state
`s`, the body returns the value of the pure function `maxT` and leaves
the state unchanged — no mutation of inputs (taken by value) or of any
external state, and no side effects. -/
theorem maxT_pure (σ : Type) {T1 T2 C : Type} (lt : T2 → T1 → Bool)
    (c1 : T1 → C) (c2 : T2 → C) (a : T1) (b : T2) (s : σ) :
    (maxTState σ lt c1 c2 a b).run s = (maxT lt c1 c2 a b, s) :=
  rfl

/-- C10: for same-typed values from a linear order, `max(x, y)` is an
upper bound of both arguments and is equal to one of them. -/
theorem maxOrd_upper_bound {T : Type} [LinearOrder T] (x y : T) :
    x ≤ maxOrd x y ∧ y ≤ maxOrd x y ∧
    (maxOrd x y = x ∨ maxOrd x y = y) := by
  unfold maxOrd maxS maxT
  by_cases h : y < x
  · simp [h]
    exact le_of_lt h
  · simp [h]
    exact le_of_not_lt h

end Maxdecltype
